import Mathlib

/-!
Verification development for the sandbox orchestration core of
`abstract-agent-runner`.

The embedding is a shallow, sequential model of
`src/sandbox/sandbox_manager.py` (the `SandboxManager` class) and
`src/sandbox/SANDBOX_PROXY.py` (the egress proxy's forwarding handler).
External effects (the mount hook, workspace file I/O, the container
engine, the upstream HTTP service) are modelled as explicit outcome
parameters; the Python functions become pure Lean functions over those
outcomes.  Each invocation of the completion callback `on_finish` is
recorded as an element of a list, so "invoked exactly once" becomes
"the list has length one".
-/

set_option autoImplicit false

namespace SandboxManager

/-- A JSON value, as produced by Python's `json.load`.  Used for the
contents of the guest-written `output.json` document. -/
inductive Json where
  | null
  | bool (b : Bool)
  | num (n : Int)
  | str (s : String)
  | arr (elems : List Json)
  | obj (fields : List (String × Json))

/-- Python `str()` rendering of a parsed JSON value, as interpolated by
the f-string in the invalid-status diagnostic.  Rendering of nested
containers follows Python `repr` conventions approximately; no claim
depends on the container cases. -/
def Json.pyStr : Json → String
  | .null => "None"
  | .bool true => "True"
  | .bool false => "False"
  | .num n => toString n
  | .str s => s
  | .arr _ => "<list>"
  | .obj _ => "<dict>"

/-- Python `==` between a parsed JSON value and a string literal, as in
`output["status"] == "success"`: true exactly when the value is that
string. -/
def Json.isStrEq (j : Json) (s : String) : Bool :=
  match j with
  | .str t => t = s
  | _ => false

/-- Python `pat in s` for strings: substring containment.  `splitOn`
returns more than one piece exactly when the (non-empty) pattern
occurs in the string. -/
def pyStrContains (s pat : String) : Bool :=
  decide (2 ≤ (s.splitOn pat).length)

/-- Membership-respecting field access on a parsed JSON object:
Python dicts from `json.load` keep the last occurrence of a duplicated
key, so the fold keeps the last binding. -/
def getField (fields : List (String × Json)) (key : String) : Option Json :=
  fields.foldl (fun acc kv => if kv.1 = key then some kv.2 else acc) none

/-- The result dictionary passed to `on_finish`.  Python `None` is
`Option.none`; a key absent from the dictionary is also `none` (no
claim distinguishes an absent key from a key bound to `None`). -/
structure Result where
  status : String
  output : Option Json
  logs : Option String
  error : Option Json
  traceback : Option Json

/-- `finish_with_error` from `_run_sandbox`: marks the result as an
error and records the message, leaving the other fields as they are. -/
def finish_with_error (msg : Json) (r : Result) : Result :=
  { r with status := "error", error := some msg }

/-- The initial result dictionary built at the top of `_run_sandbox`:
`{"status": "success", "output": None, "logs": "", "error": None,
"traceback": None}`. -/
def initialResult : Result :=
  { status := "success", output := none, logs := some "", error := none,
    traceback := none }

/-- Outcome of reading `output.json` back from the workspace: either
the read or JSON parse raised (missing file, unreadable file, malformed
JSON), with the exception text, or it yielded a parsed JSON value —
any value `json.load` can return, not only an object. -/
inductive OutputDoc where
  | missing (excMsg : String)
  | doc (j : Json)

/-- Outcome of the container phase of `_run_sandbox` (the `try` block):
launching the container raised, some step after a successful launch
raised (wait, log retrieval, container removal), or the container ran
to exit with captured combined logs and an `output.json` read outcome.
`logsSoFar` is whatever `result["logs"]` held when the late exception
hit (the empty string unless log capture had already succeeded). -/
inductive RunOutcome where
  | launchRaises (excMsg : String) (tb : String)
  | runRaises (excMsg : String) (tb : String) (logsSoFar : String)
  | exited (logs : String) (outDoc : OutputDoc)

/-- Whether the container was created by the time `_run_sandbox`
finished: only a failure of `containers.run` itself leaves the sandbox
with no container ever launched. -/
def RunOutcome.launched : RunOutcome → Bool
  | .launchRaises _ _ => false
  | .runRaises _ _ _ => true
  | .exited _ _ => true

/-- `_run_sandbox` for a registered sandbox, as the list of `on_finish`
invocations it performs: each branch of the Python function calls
`on_finish` exactly where the source does (via `finish_with_error` or
the final direct call), then returns.  The output-document validation
is not wrapped in a `try`: when `json.load` returned `None`, a boolean
or a number, the membership test `"status" not in output` raises an
uncaught `TypeError`; when it returned a string or a list that does
contain `"status"` (substring or element membership respectively), the
subsequent subscript `output["status"]` raises an uncaught `TypeError`.
On those paths the worker thread dies with zero `on_finish` calls,
hence the empty lists. -/
def run_sandbox (run : RunOutcome) : List Result :=
  match run with
  | .launchRaises excMsg tb =>
      [finish_with_error (.str ("failed to run: " ++ excMsg))
        { initialResult with traceback := some (.str tb) }]
  | .runRaises excMsg tb logsSoFar =>
      [finish_with_error (.str ("failed to run: " ++ excMsg))
        { initialResult with logs := some logsSoFar,
                             traceback := some (.str tb) }]
  | .exited logs outDoc =>
      let r1 := { initialResult with logs := some logs }
      match outDoc with
      | .missing excMsg =>
          [finish_with_error (.str ("Failed to read output.json: " ++ excMsg)) r1]
      | .doc (.null) => []
      | .doc (.bool _) => []
      | .doc (.num _) => []
      | .doc (.str s) =>
          if pyStrContains s "status" then []
          else
            [finish_with_error (.str "output.json does not contain a status field") r1]
      | .doc (.arr elems) =>
          if List.any elems (fun e => e.isStrEq "status") then []
          else
            [finish_with_error (.str "output.json does not contain a status field") r1]
      | .doc (.obj fields) =>
          match getField fields "status" with
          | none =>
              [finish_with_error (.str "output.json does not contain a status field") r1]
          | some st =>
              if st.isStrEq "success" then
                match getField fields "output" with
                | none =>
                    [finish_with_error
                      (.str "output.json has status \x27success\x27 but does not contain an output field") r1]
                | some out => [{ r1 with output := some out }]
              else if st.isStrEq "error" then
                match getField fields "error" with
                | none =>
                    [finish_with_error
                      (.str "output.json has status \x27error\x27 but does not contain an error field") r1]
                | some errVal =>
                    [finish_with_error errVal
                      { r1 with traceback := getField fields "traceback" }]
              else
                [finish_with_error
                  (.str ("output.json contains an invalid status field: " ++ st.pyStr)) r1]

/-- Projection of a result's error message when it is a JSON string
(the host's own diagnostics always are). -/
def Result.errorStr (r : Result) : Option String :=
  match r.error with
  | some (.str s) => some s
  | _ => none

/-- Outcome of the caller-supplied `on_mount(temp_dir)` hook: it either
returns normally or raises, with exception text and the stack trace
captured by `traceback.format_exc()`. -/
inductive MountOutcome where
  | ok
  | raises (excMsg : String) (tb : String)

/-- Outcome of one workspace I/O step in `create_sandbox`
(`shutil.copy2` of the entry script, or writing `input.json`): normal
return or an exception. -/
inductive IOOutcome where
  | ok
  | raises (excMsg : String)

/-- The external effects that determine one `create_sandbox` call:
what the mount hook does, what each workspace I/O step does, and how
the container run turns out if it is reached. -/
structure CreateEnv where
  mount : MountOutcome
  copyScript : IOOutcome
  writeInput : IOOutcome
  run : RunOutcome

/-- A registry entry, mirroring the dictionary stored in
`self.sandboxes[sandbox_id]` (the callback and network mode are
omitted: no claim reads them back out of the registry). -/
structure SandboxEntry where
  temp_dir : String
  script_name : String
  container : Option String

/-- The sandbox registry `self.sandboxes`: an association list with the
sandbox identifier as key, standing for the Python dict. -/
abbrev Registry := List (String × SandboxEntry)

/-- Registry lookup, `self.sandboxes.get(sandbox_id)`. -/
def Registry.find (reg : Registry) (sandbox_id : String) : Option SandboxEntry :=
  match reg with
  | [] => none
  | (k, v) :: rest => if k = sandbox_id then some v else Registry.find rest sandbox_id

/-- `get_num_sandboxes`: the number of registered sandboxes,
`len(self.sandboxes)`. -/
def get_num_sandboxes (reg : Registry) : Nat :=
  List.length reg

/-- How `create_sandbox` terminates towards its caller: a normal return
carrying `None` or the sandbox identifier, or an exception escaping the
call. -/
inductive CreateRet where
  | returned (sandboxId : Option String)
  | raised (excMsg : String)

/-- Everything observable about one `create_sandbox` call (with the
background `_run_sandbox` thread folded in sequentially): how the call
returned, every `on_finish` invocation performed, whether a container
was ever launched for the sandbox, and the registry afterwards. -/
structure CreateOutcome where
  ret : CreateRet
  calls : List Result
  containerLaunched : Bool
  registry : Registry

/-- The error result built in `create_sandbox` when `on_mount` raises:
`{"status": "error", "error": "on_mount() callback failed: <e>",
"traceback": traceback.format_exc()}` — the `output` and `logs` keys
are absent from that dictionary. -/
def mount_fail_result (excMsg tb : String) : Result :=
  { status := "error", output := none, logs := none,
    error := some (.str ("on_mount() callback failed: " ++ excMsg)),
    traceback := some (.str tb) }

/-- `create_sandbox`, sequentially composed with the `_run_sandbox`
thread it spawns.  `tempDirBase` is the basename of the fresh temp
directory returned by the external `create_temp_dir` helper, so the
identifier is `"sandbox_" ++ tempDirBase`.  The steps mirror the
source order: mount hook (failure reported via `on_finish`, no
registration, return `None`); copy of the entry script and write of
`input.json` (either failure escapes as an exception — neither is
wrapped in a `try`); registration; then the container run. -/
def create_sandbox (tempDir tempDirBase scriptName : String) (env : CreateEnv)
    (reg : Registry) : CreateOutcome :=
  let sandbox_id := "sandbox_" ++ tempDirBase
  match env.mount with
  | .raises excMsg tb =>
      { ret := .returned none,
        calls := [mount_fail_result excMsg tb],
        containerLaunched := false,
        registry := reg }
  | .ok =>
      match env.copyScript with
      | .raises excMsg =>
          { ret := .raised excMsg, calls := [], containerLaunched := false,
            registry := reg }
      | .ok =>
          match env.writeInput with
          | .raises excMsg =>
              { ret := .raised excMsg, calls := [], containerLaunched := false,
                registry := reg }
          | .ok =>
              { ret := .returned (some sandbox_id),
                calls := run_sandbox env.run,
                containerLaunched := env.run.launched,
                registry := reg ++ [(sandbox_id,
                  { temp_dir := tempDir, script_name := scriptName,
                    container := none })] }

/-- Removal of a key's binding, `del self.sandboxes[sandbox_id]`: a
Python dict holds at most one binding per key, so dropping every
binding of the key from the association list is the same operation. -/
def Registry.eraseKey (reg : Registry) (sandbox_id : String) : Registry :=
  match reg with
  | [] => []
  | (k, v) :: rest =>
      if k = sandbox_id then Registry.eraseKey rest sandbox_id
      else (k, v) :: Registry.eraseKey rest sandbox_id

/-- `cleanup_sandbox`: unknown identifiers are a warned no-op;
otherwise the container (if any) is stopped and removed best-effort,
the temp directory is deleted, and the entry is removed from the
registry (`del self.sandboxes[sandbox_id]`). -/
def cleanup_sandbox (reg : Registry) (sandbox_id : String) : Registry :=
  match Registry.find reg sandbox_id with
  | none => reg
  | some _ => Registry.eraseKey reg sandbox_id

/-- `cleanup_all`: cleanup over a snapshot of the registered
identifiers, `for sandbox_id in list(self.sandboxes.keys())`. -/
def cleanup_all (reg : Registry) : Registry :=
  List.foldl cleanup_sandbox reg (List.map Prod.fst reg)

/-- A Docker network as `_create_sandbox_network` sees it: a name plus
the creation options the code passes. -/
structure DockerNetwork where
  name : String
  driver : String
  internal : Bool

/-- The fixed isolated-network name `SANDBOX_NETWORK_NAME`. -/
def SANDBOX_NETWORK_NAME : String := "sandbox-network"

/-- `_create_sandbox_network` over the engine's network list.
`lookupFault` models `networks.get` raising something other than
`NotFound` (re-raised, so fatal to `__init__`); when the lookup
behaves, absence of the name is exactly `NotFound`.  `createFault`
models `networks.create` raising (logged, then re-raised).  On the
success path the network is created as an internal bridge network only
when the name is absent. -/
def create_sandbox_network (lookupFault createFault : Option String)
    (nets : List DockerNetwork) : Except String (List DockerNetwork) :=
  match lookupFault with
  | some excMsg => .error excMsg
  | none =>
      if List.any nets (fun n => n.name = SANDBOX_NETWORK_NAME) then
        .ok nets
      else
        match createFault with
        | some excMsg => .error excMsg
        | none =>
            .ok (nets ++ [{ name := SANDBOX_NETWORK_NAME, driver := "bridge",
                            internal := true }])

end SandboxManager

namespace SandboxProxy

/-- The request `forward_post_request` sends upstream via
`requests.post`: the concatenated URL, the fixed JSON content type,
and the incoming body passed through unmodified. -/
structure ForwardedRequest where
  url : String
  contentType : String
  body : String

/-- What the upstream does with the forwarded request: a response
(status, body, optional content-type header), a timeout
(`requests.exceptions.Timeout`), another request failure
(`requests.exceptions.RequestException`), or any other fault inside
the handler. -/
inductive UpstreamOutcome where
  | responds (status : Nat) (body : String) (contentType : Option String)
  | timeout
  | requestError (excMsg : String)
  | otherFault (excMsg : String)

/-- What the handler produces: a relayed `Response` (whose
`Content-Type` header mirrors the upstream's), or an `HTTPException`
with the given status code and detail. -/
inductive ProxyResult where
  | response (status : Nat) (body : String) (contentType : String)
  | httpError (status : Nat) (detail : String)
deriving DecidableEq

/-- Whether the handler relayed an upstream response (as opposed to
answering with an `HTTPException`). -/
def ProxyResult.isRelay : ProxyResult → Bool
  | .response _ _ _ => true
  | .httpError _ _ => false

/-- `forward_post_request`: builds the upstream URL from the configured
base and the whitelisted path, posts the body verbatim with content
type fixed to JSON, and relays the upstream status and body unchanged;
a timeout yields 504, another request failure 502, anything else 500.
When the upstream response has no `Content-Type` header,
`response.headers.get("content-type")` is `None` and building
`Response(headers={"Content-Type": None})` raises an `AttributeError`
inside the handler's `try`, so that case falls into the
`except Exception` branch and is answered 500 instead of relayed.
The upstream is an oracle from the forwarded request to its outcome. -/
def forward_post_request (forwardTo path body : String)
    (upstream : ForwardedRequest → UpstreamOutcome) : ProxyResult :=
  let req : ForwardedRequest :=
    { url := forwardTo ++ path, contentType := "application/json", body := body }
  match upstream req with
  | .responds status respBody (some ct) => .response status respBody ct
  | .responds _ _ none => .httpError 500 "Proxy unexpected error"
  | .timeout => .httpError 504 "Proxy timeout forwarding request"
  | .requestError _ => .httpError 502 "Proxy error forwarding request"
  | .otherFault _ => .httpError 500 "Proxy unexpected error"

end SandboxProxy

open SandboxManager SandboxProxy

/-- When the output document parses to a JSON object, every branch of
`_run_sandbox`'s validation performs exactly one `on_finish` call. -/
theorem run_sandbox_obj_length_one (logs : String)
    (fields : List (String × Json)) :
    (run_sandbox (.exited logs (.doc (.obj fields)))).length = 1 := by
  unfold run_sandbox
  dsimp only
  split
  · rfl
  · split
    · split <;> rfl
    · split
      · split <;> rfl
      · rfl

/-- No branch of `_run_sandbox` on a registered sandbox performs more
than one `on_finish` call. -/
theorem run_sandbox_length_le_one (run : RunOutcome) :
    (run_sandbox run).length ≤ 1 := by
  rcases run with ⟨excMsg, tb⟩ | ⟨excMsg, tb, logsSoFar⟩ | ⟨logs, outDoc⟩
  · simp [run_sandbox]
  · simp [run_sandbox]
  · rcases outDoc with excMsg | j
    · simp [run_sandbox]
    · rcases j with _ | b | n | s | elems | fields
      · simp [run_sandbox]
      · simp [run_sandbox]
      · simp [run_sandbox]
      · by_cases h : pyStrContains s "status" <;> simp [run_sandbox, h]
      · by_cases h : List.any elems (fun e => e.isStrEq "status") <;>
          simp [run_sandbox, h]
      · have := run_sandbox_obj_length_one logs fields
        omega

/-- C2: if `on_mount` raises during `create_sandbox`, then `on_finish`
is invoked immediately (and only) with an error result carrying the
failure message and the captured stack trace, no container is ever
launched for the sandbox, and the registry — hence `get_num_sandboxes`
— is left unchanged. -/
theorem c2_mount_failure (tempDir tempDirBase scriptName excMsg tb : String)
    (cs ws : IOOutcome) (run : RunOutcome) (reg : Registry) :
    (create_sandbox tempDir tempDirBase scriptName
        { mount := .raises excMsg tb, copyScript := cs, writeInput := ws,
          run := run } reg).calls = [mount_fail_result excMsg tb]
    ∧ (mount_fail_result excMsg tb).status = "error"
    ∧ (mount_fail_result excMsg tb).errorStr
        = some ("on_mount() callback failed: " ++ excMsg)
    ∧ (mount_fail_result excMsg tb).traceback = some (.str tb)
    ∧ (create_sandbox tempDir tempDirBase scriptName
        { mount := .raises excMsg tb, copyScript := cs, writeInput := ws,
          run := run } reg).containerLaunched = false
    ∧ (create_sandbox tempDir tempDirBase scriptName
        { mount := .raises excMsg tb, copyScript := cs, writeInput := ws,
          run := run } reg).registry = reg :=
  ⟨rfl, rfl, rfl, rfl, rfl, rfl⟩

/-- C1 counterexample, two concrete zero-`on_finish` paths: a sandbox
whose mount hook succeeds but whose entry-script copy (`shutil.copy2`)
raises is created, yet `on_finish` is invoked zero times — the copy is
not wrapped in a `try` and the exception escapes `create_sandbox`; and
a sandbox that runs to exit but writes `null` as its output document
makes the unguarded `"status" not in output` raise an uncaught
`TypeError` on the worker thread, again with zero `on_finish` calls. -/
theorem c1_counterexample :
    (create_sandbox "/tmp/tmp3k9x" "tmp3k9x" "agent_runner.py"
        { mount := .ok,
          copyScript := .raises "[Errno 2] No such file or directory",
          writeInput := .ok,
          run := .exited "" (.missing "unreachable") } []).calls.length = 0
    ∧ (create_sandbox "/tmp/tmp3k9x" "tmp3k9x" "agent_runner.py"
        { mount := .ok,
          copyScript := .raises "[Errno 2] No such file or directory",
          writeInput := .ok,
          run := .exited "" (.missing "unreachable") } []).calls.length ≠ 1
    ∧ (create_sandbox "/tmp/tmp9f2d" "tmp9f2d" "agent_runner.py"
        { mount := .ok, copyScript := .ok, writeInput := .ok,
          run := .exited "ran fine\n" (.doc .null) } []).calls.length = 0
    ∧ (create_sandbox "/tmp/tmp9f2d" "tmp9f2d" "agent_runner.py"
        { mount := .ok, copyScript := .ok, writeInput := .ok,
          run := .exited "ran fine\n" (.doc .null) } []).calls.length ≠ 1 :=
  ⟨rfl, by decide, rfl, by decide⟩

/-- C1 amended: `on_finish` is never invoked more than once for a
sandbox.  It is invoked exactly once on the mount-failure path and on
every container-launch path on which the output document read fails,
or parses to a JSON object, or parses to a string or array without a
`"status"` member.  It is invoked zero times (a) when a workspace I/O
failure — copying the entry script or writing the input document —
escapes `create_sandbox` as an exception, and (b) when the parsed
output document is `null`, a boolean, a number, or a string or array
containing a `"status"` member: there the unguarded membership test or
subscript in the validation raises an uncaught `TypeError` on the
worker thread. -/
theorem c1_exactly_once_amended :
    (∀ tempDir tempDirBase scriptName excMsg tb cs ws run reg,
      (create_sandbox tempDir tempDirBase scriptName
          { mount := .raises excMsg tb, copyScript := cs, writeInput := ws,
            run := run } reg).calls.length = 1)
    ∧ (∀ tempDir tempDirBase scriptName run reg,
      (create_sandbox tempDir tempDirBase scriptName
          { mount := .ok, copyScript := .ok, writeInput := .ok,
            run := run } reg).calls = run_sandbox run)
    ∧ (∀ run, (run_sandbox run).length ≤ 1)
    ∧ (∀ excMsg tb : String,
        (run_sandbox (.launchRaises excMsg tb)).length = 1)
    ∧ (∀ excMsg tb logsSoFar : String,
        (run_sandbox (.runRaises excMsg tb logsSoFar)).length = 1)
    ∧ (∀ logs excMsg : String,
        (run_sandbox (.exited logs (.missing excMsg))).length = 1)
    ∧ (∀ (logs : String) (fields : List (String × Json)),
        (run_sandbox (.exited logs (.doc (.obj fields)))).length = 1)
    ∧ (∀ logs : String,
        (run_sandbox (.exited logs (.doc .null))).length = 0)
    ∧ (∀ (logs : String) (b : Bool),
        (run_sandbox (.exited logs (.doc (.bool b)))).length = 0)
    ∧ (∀ (logs : String) (n : Int),
        (run_sandbox (.exited logs (.doc (.num n)))).length = 0)
    ∧ (∀ logs s : String,
        (run_sandbox (.exited logs (.doc (.str s)))).length
          = if pyStrContains s "status" then 0 else 1)
    ∧ (∀ (logs : String) (elems : List Json),
        (run_sandbox (.exited logs (.doc (.arr elems)))).length
          = if List.any elems (fun e => e.isStrEq "status") then 0 else 1)
    ∧ (∀ tempDir tempDirBase scriptName excMsg ws run reg,
      (create_sandbox tempDir tempDirBase scriptName
          { mount := .ok, copyScript := .raises excMsg, writeInput := ws,
            run := run } reg).calls.length = 0)
    ∧ (∀ tempDir tempDirBase scriptName excMsg run reg,
      (create_sandbox tempDir tempDirBase scriptName
          { mount := .ok, copyScript := .ok, writeInput := .raises excMsg,
            run := run } reg).calls.length = 0) := by
  refine ⟨fun _ _ _ _ _ _ _ _ _ => rfl,
    fun _ _ _ _ _ => rfl,
    run_sandbox_length_le_one,
    fun _ _ => rfl,
    fun _ _ _ => rfl,
    fun _ _ => rfl,
    run_sandbox_obj_length_one,
    fun _ => rfl,
    fun _ _ => rfl,
    fun _ _ => rfl,
    ?_, ?_,
    fun _ _ _ _ _ _ _ => rfl,
    fun _ _ _ _ _ _ => rfl⟩
  · intro logs s
    by_cases h : pyStrContains s "status" <;> simp [run_sandbox, h]
  · intro logs elems
    by_cases h : List.any elems (fun e => e.isStrEq "status") <;>
      simp [run_sandbox, h]

/-- C3 counterexample: a workspace I/O failure (writing `input.json`
raises) is not reported via the completion callback at all — the
exception escapes `create_sandbox` unhandled, with zero `on_finish`
invocations. -/
theorem c3_counterexample :
    (create_sandbox "/tmp/tmp7q2c" "tmp7q2c" "agent_runner.py"
        { mount := .ok, copyScript := .ok,
          writeInput := .raises "[Errno 28] No space left on device",
          run := .exited "" (.missing "unreachable") } []).calls = []
    ∧ (create_sandbox "/tmp/tmp7q2c" "tmp7q2c" "agent_runner.py"
        { mount := .ok, copyScript := .ok,
          writeInput := .raises "[Errno 28] No space left on device",
          run := .exited "" (.missing "unreachable") } []).ret
        = .raised "[Errno 28] No space left on device" :=
  ⟨rfl, rfl⟩

/-- C3 amended: a mount-hook failure is reported via the completion
callback as a well-formed error Result and does not escape
`create_sandbox`; but a workspace I/O failure (copying the entry
script, or serializing the input payload) escapes `create_sandbox` as
the raised exception, with no completion callback invoked. -/
theorem c3_prelaunch_amended :
    (∀ tempDir tempDirBase scriptName excMsg tb cs ws run reg,
      (create_sandbox tempDir tempDirBase scriptName
          { mount := .raises excMsg tb, copyScript := cs, writeInput := ws,
            run := run } reg).ret = .returned none
      ∧ (create_sandbox tempDir tempDirBase scriptName
          { mount := .raises excMsg tb, copyScript := cs, writeInput := ws,
            run := run } reg).calls = [mount_fail_result excMsg tb]
      ∧ (mount_fail_result excMsg tb).status = "error")
    ∧ (∀ tempDir tempDirBase scriptName excMsg ws run reg,
      (create_sandbox tempDir tempDirBase scriptName
          { mount := .ok, copyScript := .raises excMsg, writeInput := ws,
            run := run } reg).ret = .raised excMsg
      ∧ (create_sandbox tempDir tempDirBase scriptName
          { mount := .ok, copyScript := .raises excMsg, writeInput := ws,
            run := run } reg).calls = [])
    ∧ (∀ tempDir tempDirBase scriptName excMsg run reg,
      (create_sandbox tempDir tempDirBase scriptName
          { mount := .ok, copyScript := .ok, writeInput := .raises excMsg,
            run := run } reg).ret = .raised excMsg
      ∧ (create_sandbox tempDir tempDirBase scriptName
          { mount := .ok, copyScript := .ok, writeInput := .raises excMsg,
            run := run } reg).calls = []) :=
  ⟨fun _ _ _ _ _ _ _ _ _ => ⟨rfl, rfl, rfl⟩,
   fun _ _ _ _ _ _ _ => ⟨rfl, rfl⟩,
   fun _ _ _ _ _ _ => ⟨rfl, rfl⟩⟩

/-- C4 counterexample: when the guest exits without a readable output
document, the completion result is an error, but its message is not
the literal string claimed — it is the source's
`"Failed to read output.json: <exception>"` diagnostic. -/
theorem c4_counterexample :
    (run_sandbox (.exited "some logs\n"
        (.missing "[Errno 2] No such file or directory"))).map Result.errorStr
      ≠ [some "failed to read output document"]
    ∧ (run_sandbox (.exited "some logs\n"
        (.missing "[Errno 2] No such file or directory"))).map Result.status
      = ["error"] := by
  constructor
  · intro h
    simp only [run_sandbox, List.map] at h
    have h2 := List.head_eq_of_cons_eq h
    simp [Result.errorStr, finish_with_error, initialResult] at h2
  · rfl

/-- C4 amended: if the guest exits without producing a readable,
structurally valid output document, the completion result is an error
Result — never a success — whose error message is
`"Failed to read output.json: "` followed by the exception text. -/
theorem c4_read_failure_amended (logs excMsg : String) :
    run_sandbox (.exited logs (.missing excMsg))
      = [{ status := "error", output := none, logs := some logs,
           error := some (.str ("Failed to read output.json: " ++ excMsg)),
           traceback := none }] :=
  rfl

/-- C5 counterexample: an output document with status `success` and no
`output` field yields an error, but its message is the source's
diagnostic, not the literal string `"success status missing output
field"` claimed. -/
theorem c5_counterexample :
    (run_sandbox (.exited "" (.doc (.obj [("status", .str "success")])))).map Result.errorStr
      ≠ [some "success status missing output field"]
    ∧ (run_sandbox (.exited "" (.doc (.obj [("status", .str "success")])))).map Result.errorStr
      = [some "output.json has status \x27success\x27 but does not contain an output field"] := by
  constructor
  · intro h
    simp only [run_sandbox, getField, List.foldl, Json.isStrEq] at h
    have h2 := List.head_eq_of_cons_eq h
    simp [Result.errorStr, finish_with_error, initialResult] at h2
  · rfl

/-- C5 amended: for every output document whose status discriminator is
`success` but which has no `output` field, the completion result is an
error Result with the source's message `"output.json has status
'success' but does not contain an output field"`. -/
theorem c5_success_missing_output_amended (logs : String)
    (fields : List (String × Json))
    (hs : getField fields "status" = some (.str "success"))
    (ho : getField fields "output" = none) :
    run_sandbox (.exited logs (.doc (.obj fields)))
      = [{ status := "error", output := none, logs := some logs,
           error := some (.str "output.json has status \x27success\x27 but does not contain an output field"),
           traceback := none }] := by
  unfold run_sandbox
  simp only [hs, ho, Json.isStrEq]
  rfl

/-- C5 witness: the amended theorem applied to a concrete document
`{"status": "success"}`. -/
theorem c5_witness :
    getField [("status", Json.str "success")] "status" = some (.str "success")
    ∧ getField [("status", Json.str "success")] "output" = none
    ∧ run_sandbox (.exited "w" (.doc (.obj [("status", .str "success")])))
      = [{ status := "error", output := none, logs := some "w",
           error := some (.str "output.json has status \x27success\x27 but does not contain an output field"),
           traceback := none }] :=
  ⟨rfl, rfl, c5_success_missing_output_amended "w" [("status", .str "success")] rfl rfl⟩

/-- C6: for every output document with status `error` and an `error`
field present as a string, the completion result is an error Result
whose error message equals the guest's error string verbatim and whose
traceback equals the guest's optional `traceback` field (`none` when
the guest omitted it). -/
theorem c6_guest_error_propagation (logs s : String)
    (fields : List (String × Json))
    (hs : getField fields "status" = some (.str "error"))
    (he : getField fields "error" = some (.str s)) :
    run_sandbox (.exited logs (.doc (.obj fields)))
      = [{ status := "error", output := none, logs := some logs,
           error := some (.str s),
           traceback := getField fields "traceback" }] := by
  unfold run_sandbox
  simp only [hs, he, Json.isStrEq]
  rfl

/-- C6 witness: the theorem applied to the concrete document
`{"status": "error", "error": "boom"}` (traceback omitted by the
guest, hence `none` in the result). -/
theorem c6_witness :
    getField [("status", Json.str "error"), ("error", Json.str "boom")] "status"
      = some (.str "error")
    ∧ getField [("status", Json.str "error"), ("error", Json.str "boom")] "error"
      = some (.str "boom")
    ∧ run_sandbox (.exited "guest logs\n"
        (.doc (.obj [("status", .str "error"), ("error", .str "boom")])))
      = [{ status := "error", output := none, logs := some "guest logs\n",
           error := some (.str "boom"),
           traceback := getField [("status", Json.str "error"), ("error", Json.str "boom")] "traceback" }] :=
  ⟨rfl, rfl,
   c6_guest_error_propagation "guest logs\n" "boom"
     [("status", .str "error"), ("error", .str "boom")] rfl rfl⟩

/-- Deleting a key from the registry makes it unfindable. -/
theorem find_eraseKey_self (reg : Registry) (sandbox_id : String) :
    Registry.find (Registry.eraseKey reg sandbox_id) sandbox_id = none := by
  induction reg with
  | nil => rfl
  | cons hd tl ih =>
    rcases hd with ⟨k, v⟩
    by_cases h : k = sandbox_id
    · simpa [Registry.eraseKey, h] using ih
    · simpa [Registry.eraseKey, h, Registry.find] using ih

/-- Deleting one key from the registry leaves every other key's binding
unchanged. -/
theorem find_eraseKey_other (reg : Registry) (sandbox_id k : String)
    (hk : k ≠ sandbox_id) :
    Registry.find (Registry.eraseKey reg sandbox_id) k = Registry.find reg k := by
  induction reg with
  | nil => rfl
  | cons hd tl ih =>
    rcases hd with ⟨k1, v⟩
    by_cases h : k1 = sandbox_id
    · subst h
      have hne : ¬ k1 = k := fun hkk => hk (hkk ▸ rfl)
      simpa [Registry.eraseKey, Registry.find, hne] using ih
    · by_cases hkk : k1 = k
      · simp [Registry.eraseKey, h, Registry.find, hkk, hk]
      · simpa [Registry.eraseKey, h, Registry.find, hkk] using ih

/-- Erasing a key absent from the registry changes nothing. -/
theorem eraseKey_eq_self (reg : Registry) (sandbox_id : String)
    (h : sandbox_id ∉ List.map Prod.fst reg) :
    Registry.eraseKey reg sandbox_id = reg := by
  induction reg with
  | nil => rfl
  | cons hd tl ih =>
    rcases hd with ⟨k, v⟩
    rw [List.map_cons] at h
    simp only [List.mem_cons] at h
    have h1 : ¬ k = sandbox_id := fun e => h (Or.inl e.symm)
    have h2 : sandbox_id ∉ List.map Prod.fst tl := fun m => h (Or.inr m)
    simp [Registry.eraseKey, h1, ih h2]

/-- Deleting a registered key (keys distinct) shrinks the registry by
exactly one entry. -/
theorem length_eraseKey_of_find (reg : Registry) (sandbox_id : String)
    (e : SandboxEntry)
    (hnd : (List.map Prod.fst reg).Nodup)
    (hfind : Registry.find reg sandbox_id = some e) :
    (Registry.eraseKey reg sandbox_id).length + 1 = reg.length := by
  induction reg with
  | nil => simp [Registry.find] at hfind
  | cons hd tl ih =>
    rcases hd with ⟨k, v⟩
    rw [List.map_cons, List.nodup_cons] at hnd
    by_cases h : k = sandbox_id
    · subst h
      have htl : Registry.eraseKey tl k = tl := eraseKey_eq_self tl k hnd.1
      simp [Registry.eraseKey, htl]
    · have hfind2 : Registry.find tl sandbox_id = some e := by
        unfold Registry.find at hfind
        rwa [if_neg h] at hfind
      have := ih hnd.2 hfind2
      simp only [Registry.eraseKey, h, if_false, List.length_cons]
      omega

/-- C7: `cleanup_sandbox` on a registered identifier (registry keys
distinct, as in a Python dict) removes exactly that sandbox:
`get_num_sandboxes` decreases by exactly one, the identifier is no
longer findable, and every other identifier's entry is untouched;
cleanup on an unknown identifier is a no-op leaving the registry
unchanged; and `cleanup_all` on an empty registry leaves
`get_num_sandboxes` at zero. -/
theorem c7_cleanup_count (reg : Registry) (sandbox_id : String)
    (e : SandboxEntry)
    (hnd : (List.map Prod.fst reg).Nodup)
    (hfind : Registry.find reg sandbox_id = some e) :
    get_num_sandboxes (cleanup_sandbox reg sandbox_id) + 1
      = get_num_sandboxes reg
    ∧ Registry.find (cleanup_sandbox reg sandbox_id) sandbox_id = none
    ∧ (∀ k, k ≠ sandbox_id →
        Registry.find (cleanup_sandbox reg sandbox_id) k = Registry.find reg k)
    ∧ (∀ (reg2 : Registry) (id2 : String), Registry.find reg2 id2 = none →
        cleanup_sandbox reg2 id2 = reg2)
    ∧ cleanup_all ([] : Registry) = []
    ∧ get_num_sandboxes (cleanup_all ([] : Registry)) = 0 := by
  have hclean : cleanup_sandbox reg sandbox_id
      = Registry.eraseKey reg sandbox_id := by
    unfold cleanup_sandbox
    rw [hfind]
  refine ⟨?_, ?_, ?_, ?_, rfl, rfl⟩
  · rw [hclean]
    exact length_eraseKey_of_find reg sandbox_id e hnd hfind
  · rw [hclean]
    exact find_eraseKey_self reg sandbox_id
  · intro k hk
    rw [hclean]
    exact find_eraseKey_other reg sandbox_id k hk
  · intro reg2 id2 h
    unfold cleanup_sandbox
    rw [h]

/-- C7 witness: the theorem applied to a concrete two-entry registry. -/
theorem c7_witness :
    (List.map Prod.fst
        ([("sandbox_a", { temp_dir := "/tmp/a", script_name := "a.py", container := none }),
          ("sandbox_b", { temp_dir := "/tmp/b", script_name := "b.py", container := none })]
          : Registry)).Nodup
    ∧ get_num_sandboxes (cleanup_sandbox
        [("sandbox_a", { temp_dir := "/tmp/a", script_name := "a.py", container := none }),
         ("sandbox_b", { temp_dir := "/tmp/b", script_name := "b.py", container := none })]
        "sandbox_a") + 1
      = get_num_sandboxes
        ([("sandbox_a", { temp_dir := "/tmp/a", script_name := "a.py", container := none }),
          ("sandbox_b", { temp_dir := "/tmp/b", script_name := "b.py", container := none })]
          : Registry) :=
  ⟨by decide,
   (c7_cleanup_count
     [("sandbox_a", { temp_dir := "/tmp/a", script_name := "a.py", container := none }),
      ("sandbox_b", { temp_dir := "/tmp/b", script_name := "b.py", container := none })]
     "sandbox_a"
     { temp_dir := "/tmp/a", script_name := "a.py", container := none }
     (by decide) rfl).1⟩

/-- C8: network provisioning is idempotent — a first call yields a
network list on which a second consecutive call succeeds without any
change, and the isolated network name occurs exactly once afterwards
(no duplicate whether or not it already existed); a lookup failure
other than not-found is re-raised, fatally to orchestrator startup. -/
theorem c8_network_idempotent (nets : List DockerNetwork) :
    (∃ nets1,
      create_sandbox_network none none nets = .ok nets1
      ∧ create_sandbox_network none none nets1 = .ok nets1
      ∧ List.countP (fun n => decide (n.name = SANDBOX_NETWORK_NAME)) nets1
          = max (List.countP (fun n => decide (n.name = SANDBOX_NETWORK_NAME)) nets) 1)
    ∧ (∀ (excMsg : String) (createFault : Option String)
        (nets2 : List DockerNetwork),
        create_sandbox_network (some excMsg) createFault nets2
          = .error excMsg) := by
  constructor
  · by_cases h : List.any nets (fun n => n.name = SANDBOX_NETWORK_NAME) = true
    · refine ⟨nets, ?_, ?_, ?_⟩
      · unfold create_sandbox_network
        rw [if_pos h]
      · unfold create_sandbox_network
        rw [if_pos h]
      · have hpos : 0 < List.countP
            (fun n => decide (n.name = SANDBOX_NETWORK_NAME)) nets := by
          rw [List.countP_pos_iff]
          rcases List.any_eq_true.mp h with ⟨x, hx, hpx⟩
          exact ⟨x, hx, hpx⟩
        omega
    · have h2 : List.any nets (fun n => n.name = SANDBOX_NETWORK_NAME) = false :=
        Bool.eq_false_iff.mpr h
      refine ⟨nets ++ [{ name := SANDBOX_NETWORK_NAME, driver := "bridge",
                         internal := true }], ?_, ?_, ?_⟩
      · unfold create_sandbox_network
        rw [if_neg h]
      · have hany : List.any
            (nets ++ [({ name := SANDBOX_NETWORK_NAME, driver := "bridge",
                         internal := true } : DockerNetwork)])
            (fun n => n.name = SANDBOX_NETWORK_NAME) = true := by
          simp
        unfold create_sandbox_network
        rw [if_pos hany]
      · have h0 : List.countP
            (fun n => decide (n.name = SANDBOX_NETWORK_NAME)) nets = 0 := by
          rw [List.countP_eq_zero]
          intro a ha
          have := List.any_eq_true.not.mp h
          simp only [decide_eq_true_eq]
          intro hname
          exact h (List.any_eq_true.mpr ⟨a, ha, by simp [hname]⟩)
        rw [List.countP_append, h0]
        simp
  · intro excMsg createFault nets2
    rfl

/-- C9 counterexample: an upstream that responds (status 204, empty
body) but without a `Content-Type` header is not relayed — building
the relay `Response` with a `None` header value raises inside the
handler's `try` and the request is answered with the internal-error
status 500 instead. -/
theorem c9_counterexample :
    forward_post_request "http://192.168.5.94:8000" "/api/inference" "\x7b\x7d"
        (fun _ => .responds 204 "" none)
      = .httpError 500 "Proxy unexpected error"
    ∧ (forward_post_request "http://192.168.5.94:8000" "/api/inference" "\x7b\x7d"
        (fun _ => .responds 204 "" none)).isRelay = false :=
  ⟨rfl, rfl⟩

/-- C9 amended: when the upstream responds with a `Content-Type`
header, the proxy handler relays its status code and body unchanged;
when the upstream responds without one, the relay construction fails
inside the handler and the answer is the internal-error status 500.
An upstream timeout yields 504, an upstream connection/protocol
failure 502, and any other internal fault 500.  The final conjunct
shows, via an echoing upstream, that the forwarded request carries the
configured base URL concatenated with the path, the content type fixed
to JSON, and the incoming body verbatim. -/
theorem c9_proxy_forwarding (forwardTo path body respBody excMsg ct : String)
    (status : Nat) :
    forward_post_request forwardTo path body
        (fun _ => .responds status respBody (some ct))
      = .response status respBody ct
    ∧ forward_post_request forwardTo path body
        (fun _ => .responds status respBody none)
      = .httpError 500 "Proxy unexpected error"
    ∧ forward_post_request forwardTo path body (fun _ => .timeout)
      = .httpError 504 "Proxy timeout forwarding request"
    ∧ forward_post_request forwardTo path body (fun _ => .requestError excMsg)
      = .httpError 502 "Proxy error forwarding request"
    ∧ forward_post_request forwardTo path body (fun _ => .otherFault excMsg)
      = .httpError 500 "Proxy unexpected error"
    ∧ forward_post_request forwardTo path body
        (fun req => .responds 200 (req.url ++ "|" ++ req.contentType ++ "|" ++ req.body)
          (some "text/plain"))
      = .response 200 ((forwardTo ++ path) ++ "|" ++ "application/json" ++ "|" ++ body)
          "text/plain" :=
  ⟨rfl, rfl, rfl, rfl, rfl, rfl⟩

/-- C10: when the mount hook raises, `create_sandbox` returns `None`
rather than a sandbox identifier; on every successful creation it
returns the `"sandbox_"`-prefixed identifier. -/
theorem c10_create_return (tempDir tempDirBase scriptName excMsg tb : String)
    (cs ws : IOOutcome) (run : RunOutcome) (reg : Registry) :
    (create_sandbox tempDir tempDirBase scriptName
        { mount := .raises excMsg tb, copyScript := cs, writeInput := ws,
          run := run } reg).ret = .returned none
    ∧ (create_sandbox tempDir tempDirBase scriptName
        { mount := .ok, copyScript := .ok, writeInput := .ok,
          run := run } reg).ret
        = .returned (some ("sandbox_" ++ tempDirBase)) :=
  ⟨rfl, rfl⟩
